import Mathlib

/-!
Verification of the fusb30x driver registration glue (`src/fusb30x_driver.c`)
against its natural-language specification.  The two functions under study are
`fusb30x_probe` (attach) and `fusb30x_remove` (detach); each is shallowly
embedded as a pure Lean function over an explicit environment describing the
outcomes of the external calls it makes, together with the driver-visible
mutable state it touches.
-/

namespace Fusb30x

/-- Linux errno value EINVAL (22), returned negated by the driver. -/
def einval : Int := 22

/-- Linux errno value EIO (5), returned negated by the driver. -/
def eio : Int := 5

/-- Linux errno value ENOMEM (12), returned negated by the driver. -/
def enomem : Int := 12

/-- Observable steps of `fusb30x_probe` and `fusb30x_remove`, one constructor
per statement of interest in the C source, in source order: the NULL-client
check, `of_match_device`, `i2c_check_functionality`, `devm_kzalloc`,
`fusb30x_SetChip`, `mutex_init`, `fusb_InitChipData`, `i2c_set_clientdata`,
`fusb_IsDeviceValid`, `fusb_InitializeGPIO`, `fusb_InitializeWorkers`,
`fusb_InitializeTimer`, `fusb_Sysfs_Init`, `fusb_InitializeCore`,
`fusb_ScheduleWork`; then for remove: `i2c_get_clientdata`, `fusb_StopTimers`,
`fusb_StopThreads`, `fusb_GPIO_Cleanup`. -/
inductive Ev where
  | checkClient
  | dtCheck
  | funcCheck
  | alloc
  | setChip
  | mutexInit
  | initChipData
  | setClientData
  | isDeviceValid
  | initGpio
  | initWorkers
  | initTimer
  | sysfsInit
  | initCore
  | scheduleWork
  | getClientData
  | stopTimers
  | stopThreads
  | gpioCleanup
  deriving DecidableEq, Repr

/-- The driver-visible mutable state touched by `fusb30x_probe`: the global
chip pointer written by `fusb30x_SetChip`, the i2c client's driver-data
written by `i2c_set_clientdata`, whether `mutex_init` has run on the chip
lock, and whether `fusb_InitChipData` has run.  Pointers are modelled as
addresses (`Nat`), with `none` standing for NULL. -/
structure DriverState where
  gChip : Option Nat
  clientData : Option Nat
  lockInit : Bool
  chipDataInit : Bool
  deriving DecidableEq, Repr

/-- Outcome of each external call `fusb30x_probe` makes, treated as an input:
`clientNonNull` is `client != NULL`; `dtMatch` the result of
`of_match_device`; `i2cFuncOk` the result of `i2c_check_functionality`;
`allocOk` whether `devm_kzalloc` succeeds, handing back address `allocAddr`;
`deviceValid` the result of `fusb_IsDeviceValid`; `gpioRet` the return value
of `fusb_InitializeGPIO` (0 on success). -/
structure ProbeEnv where
  clientNonNull : Bool
  dtMatch : Bool
  i2cFuncOk : Bool
  allocOk : Bool
  allocAddr : Nat
  deviceValid : Bool
  gpioRet : Int
  deriving DecidableEq, Repr

/-- The result of a probe call: its return value, the driver state after the
call, and the trace of steps it executed in order. -/
structure ProbeResult where
  ret : Int
  state : DriverState
  trace : List Ev
  deriving DecidableEq, Repr

/-- Shallow embedding of `fusb30x_probe` (src/fusb30x_driver.c, lines 41-129).
Each `if`/`return` mirrors the corresponding branch of the source; the trace
records the steps executed, in order.  Note that the source performs no
unwinding on the late failure paths (`fusb_IsDeviceValid` false,
`fusb_InitializeGPIO` nonzero): it returns with the global chip pointer, the
initialized lock and the client driver-data still set. -/
def fusb30x_probe (env : ProbeEnv) (s : DriverState) : ProbeResult :=
  if env.clientNonNull = false then
    { ret := -einval, state := s, trace := [Ev.checkClient] }
  else if env.dtMatch = false then
    { ret := -einval, state := s, trace := [Ev.checkClient, Ev.dtCheck] }
  else if env.i2cFuncOk = false then
    { ret := -eio, state := s, trace := [Ev.checkClient, Ev.dtCheck, Ev.funcCheck] }
  else if env.allocOk = false then
    { ret := -enomem, state := s,
      trace := [Ev.checkClient, Ev.dtCheck, Ev.funcCheck, Ev.alloc] }
  else
    let s1 : DriverState := { s with gChip := some env.allocAddr }
    let s2 : DriverState := { s1 with lockInit := true }
    let s3 : DriverState := { s2 with chipDataInit := true }
    let s4 : DriverState := { s3 with clientData := some env.allocAddr }
    let t0 : List Ev :=
      [Ev.checkClient, Ev.dtCheck, Ev.funcCheck, Ev.alloc,
       Ev.setChip, Ev.mutexInit, Ev.initChipData, Ev.setClientData]
    if env.deviceValid = false then
      { ret := -eio, state := s4, trace := t0 ++ [Ev.isDeviceValid] }
    else if env.gpioRet ≠ 0 then
      { ret := env.gpioRet, state := s4,
        trace := t0 ++ [Ev.isDeviceValid, Ev.initGpio] }
    else
      { ret := 0, state := s4,
        trace := t0 ++ [Ev.isDeviceValid, Ev.initGpio, Ev.initWorkers,
                        Ev.initTimer, Ev.sysfsInit, Ev.initCore,
                        Ev.scheduleWork] }

/-- The result of a remove call: its return value and the trace of teardown
steps it executed in order.  `fusb30x_remove` does not modify the modelled
driver state (its only state access is reading the client driver-data into a
local variable that is never used again). -/
structure RemoveResult where
  ret : Int
  trace : List Ev
  deriving DecidableEq, Repr

/-- Shallow embedding of `fusb30x_remove` (src/fusb30x_driver.c, lines
131-141).  It reads the client's driver-data into a local (`chip`) that is
never used afterwards, calls `fusb_StopTimers`, `fusb_StopThreads`,
`fusb_GPIO_Cleanup` in that order, and returns 0 unconditionally; the return
values of the teardown helpers (all void in the source) are never consulted. -/
def fusb30x_remove (clientData : Option Nat) : RemoveResult :=
  let _chip := clientData
  { ret := 0,
    trace := [Ev.getClientData, Ev.stopTimers, Ev.stopThreads, Ev.gpioCleanup] }

/-- Modelled from the spec: the body of `fusb_GPIO_Cleanup` is not under
src/.  Per the spec's GPIO Interrupt Bridge section, interrupt unregistration
belongs to the GPIO Interrupt Bridge teardown, i.e. it is performed as part
of the GPIO release step; in the teardown trace that step is the
`gpioCleanup` event. -/
def interruptUnregisterStep : Ev := Ev.gpioCleanup

/-- A pristine driver state: no global chip pointer, no client driver-data,
lock and chip data untouched.  Used as the baseline in counterexamples. -/
def baseline : DriverState :=
  { gChip := none, clientData := none, lockInit := false, chipDataInit := false }

/-- A probe environment in which every external call succeeds, with the
allocator handing back address `a`. -/
def allOk (a : Nat) : ProbeEnv :=
  { clientNonNull := true, dtMatch := true, i2cFuncOk := true,
    allocOk := true, allocAddr := a, deviceValid := true, gpioRet := 0 }

/-- Claim C3: every successful attach performs its steps in exactly the
specified order — validate (client, device tree, bus functionality),
allocate the chip structure, set the global chip pointer, initialize the
lock, initialize chip data, set the client driver-data, verify the device
identity, initialize GPIO, initialize workers, initialize the timer,
initialize sysfs, initialize the core state machine, and only then, last,
schedule the workers. -/
theorem probe_success_order (env : ProbeEnv) (s : DriverState)
    (h : (fusb30x_probe env s).ret = 0) :
    (fusb30x_probe env s).trace =
      [Ev.checkClient, Ev.dtCheck, Ev.funcCheck, Ev.alloc, Ev.setChip,
       Ev.mutexInit, Ev.initChipData, Ev.setClientData, Ev.isDeviceValid,
       Ev.initGpio, Ev.initWorkers, Ev.initTimer, Ev.sysfsInit, Ev.initCore,
       Ev.scheduleWork] ∧
    (fusb30x_probe env s).trace.getLast? = some Ev.scheduleWork := by
  cases hc : env.clientNonNull <;> cases hd : env.dtMatch <;>
    cases hf : env.i2cFuncOk <;> cases ha : env.allocOk <;>
    cases hv : env.deviceValid <;> by_cases hg : env.gpioRet = 0 <;>
    simp_all [fusb30x_probe, einval, eio, enomem]

/-- Witness for `probe_success_order` at an all-success environment. -/
theorem probe_success_order_witness :
    (fusb30x_probe (allOk 7) baseline).trace =
      [Ev.checkClient, Ev.dtCheck, Ev.funcCheck, Ev.alloc, Ev.setChip,
       Ev.mutexInit, Ev.initChipData, Ev.setClientData, Ev.isDeviceValid,
       Ev.initGpio, Ev.initWorkers, Ev.initTimer, Ev.sysfsInit, Ev.initCore,
       Ev.scheduleWork] ∧
    (fusb30x_probe (allOk 7) baseline).trace.getLast? = some Ev.scheduleWork :=
  probe_success_order (allOk 7) baseline (by decide)

/-- Claim C4: detach tears down in exactly this order — stop the timers
first, then stop the worker threads, then release the GPIO resources; in
particular the timers are cancelled before the worker scheduler is stopped. -/
theorem remove_teardown_order (cd : Option Nat) :
    (fusb30x_remove cd).trace =
      [Ev.getClientData, Ev.stopTimers, Ev.stopThreads, Ev.gpioCleanup] ∧
    (fusb30x_remove cd).trace.indexOf Ev.stopTimers <
      (fusb30x_remove cd).trace.indexOf Ev.stopThreads ∧
    (fusb30x_remove cd).trace.indexOf Ev.stopThreads <
      (fusb30x_remove cd).trace.indexOf Ev.gpioCleanup := by
  have h : fusb30x_remove cd = fusb30x_remove none := rfl
  rw [h]
  decide

/-- Claim C6: detach succeeds unconditionally — `fusb30x_remove` returns 0
for every client argument; the teardown helpers it calls are void and their
outcomes are never consulted or propagated. -/
theorem remove_always_succeeds (cd : Option Nat) :
    (fusb30x_remove cd).ret = 0 := rfl

/-- Claim C10: detach never uses the chip pointer it retrieves from the
client driver-data — its result (teardown trace and return value 0) is
identical for every client driver-data value, including NULL. -/
theorem remove_ignores_chip (cd : Option Nat) :
    fusb30x_remove cd = fusb30x_remove none ∧ (fusb30x_remove cd).ret = 0 :=
  ⟨rfl, rfl⟩

/-- Claim C9: an attach attempt that fails before the chip allocation (NULL
client, device-tree mismatch, or missing I2C/SMBus functionality) returns a
negative error and performs no mutation at all — the driver state, in
particular the global chip pointer, the lock and the client driver-data, is
exactly as before the call. -/
theorem probe_early_failure_no_mutation (env : ProbeEnv) (s : DriverState)
    (h : env.clientNonNull = false ∨ env.dtMatch = false ∨
      env.i2cFuncOk = false) :
    (fusb30x_probe env s).state = s ∧ (fusb30x_probe env s).ret < 0 := by
  cases hc : env.clientNonNull <;> cases hd : env.dtMatch <;>
    cases hf : env.i2cFuncOk <;>
    simp_all [fusb30x_probe, einval, eio, enomem]

/-- Witness for `probe_early_failure_no_mutation` at a device-tree mismatch. -/
theorem probe_early_failure_no_mutation_witness :
    (fusb30x_probe { allOk 3 with dtMatch := false } baseline).state
        = baseline ∧
    (fusb30x_probe { allOk 3 with dtMatch := false } baseline).ret < 0 :=
  probe_early_failure_no_mutation { allOk 3 with dtMatch := false } baseline
    (Or.inr (Or.inl rfl))

/-- Claim C1 (counterexample): an attach attempt that fails at the identity
check does NOT release the resources acquired so far — after the failing call
the global chip pointer, the client driver-data and the initialized lock are
all still set, so the device is not left as if attach never happened. -/
theorem probe_failure_leaves_resources :
    (fusb30x_probe { allOk 7 with deviceValid := false } baseline).ret < 0 ∧
    (fusb30x_probe { allOk 7 with deviceValid := false } baseline).state ≠
      baseline ∧
    (fusb30x_probe { allOk 7 with deviceValid := false } baseline).state.gChip
      = some 7 ∧
    (fusb30x_probe { allOk 7 with deviceValid := false } baseline).state.clientData
      = some 7 ∧
    (fusb30x_probe { allOk 7 with deviceValid := false } baseline).state.lockInit
      = true := by decide

/-- Claim C1 (amended): an attach failure before the chip allocation leaves
the driver state untouched, while a failure at the identity check or at GPIO
initialization returns a nonzero error but leaves the global chip pointer,
the initialized lock and the client driver-data set (no unwinding is
performed; only the chip allocation itself is device-managed and reclaimed
by the framework). -/
theorem probe_failure_unwind (env : ProbeEnv) (s : DriverState) :
    (¬(env.clientNonNull = true ∧ env.dtMatch = true ∧ env.i2cFuncOk = true ∧
        env.allocOk = true) →
      (fusb30x_probe env s).state = s) ∧
    (env.clientNonNull = true → env.dtMatch = true → env.i2cFuncOk = true →
      env.allocOk = true →
      (env.deviceValid = false ∨ env.gpioRet ≠ 0) →
      (fusb30x_probe env s).ret ≠ 0 ∧
      (fusb30x_probe env s).state.gChip = some env.allocAddr ∧
      (fusb30x_probe env s).state.clientData = some env.allocAddr ∧
      (fusb30x_probe env s).state.lockInit = true) := by
  constructor
  · intro h
    cases hc : env.clientNonNull <;> cases hd : env.dtMatch <;>
      cases hf : env.i2cFuncOk <;> cases ha : env.allocOk <;>
      simp_all [fusb30x_probe]
  · intro hc hd hf ha hfail
    cases hv : env.deviceValid <;> by_cases hg : env.gpioRet = 0 <;>
      simp_all [fusb30x_probe, eio]

/-- Witness for `probe_failure_unwind`: a device-tree mismatch leaves the
state untouched, and an identity-check failure leaves the global chip
pointer set. -/
theorem probe_failure_unwind_witness :
    (fusb30x_probe { allOk 3 with clientNonNull := false } baseline).state
        = baseline ∧
    (fusb30x_probe { allOk 7 with deviceValid := false } baseline).ret ≠ 0 ∧
    (fusb30x_probe { allOk 7 with deviceValid := false } baseline).state.gChip
        = some 7 :=
  ⟨(probe_failure_unwind { allOk 3 with clientNonNull := false } baseline).1
      (by decide),
   ((probe_failure_unwind { allOk 7 with deviceValid := false } baseline).2
      rfl rfl rfl rfl (Or.inl rfl)).1,
   ((probe_failure_unwind { allOk 7 with deviceValid := false } baseline).2
      rfl rfl rfl rfl (Or.inl rfl)).2.1⟩

/-- Claim C2 (counterexample): there is no re-probe guard.  After a first
successful attach leaves the global chip pointer at address 1, a second
attach attempt succeeds (returns 0, not an `AlreadyAttached` error) and
overwrites the global chip pointer with the new address 2, disturbing the
first instance's registration. -/
theorem probe_no_reprobe_guard_counterexample :
    (fusb30x_probe (allOk 1) baseline).state.gChip = some 1 ∧
    (fusb30x_probe (allOk 2)
        (fusb30x_probe (allOk 1) baseline).state).ret = 0 ∧
    (fusb30x_probe (allOk 2)
        (fusb30x_probe (allOk 1) baseline).state).state.gChip = some 2 := by
  decide

/-- Claim C2 (amended): `fusb30x_probe` never consults the existing driver
state — for every prior state, an attach attempt whose external calls all
succeed returns 0 and overwrites the global chip pointer and client
driver-data with the new allocation, so a second attach is not refused. -/
theorem probe_no_reprobe_guard (s : DriverState) (a : Nat) :
    (fusb30x_probe (allOk a) s).ret = 0 ∧
    (fusb30x_probe (allOk a) s).state.gChip = some a ∧
    (fusb30x_probe (allOk a) s).state.clientData = some a := by
  simp [fusb30x_probe, allOk]

/-- Claim C5 (counterexample): in the detach trace, the GPIO release step —
which per the spec contains the interrupt unregistration — is NOT ordered
before the worker threads are stopped: `fusb_GPIO_Cleanup` runs after
`fusb_StopThreads`. -/
theorem remove_unregister_not_before_stop :
    ¬ ((fusb30x_remove none).trace.indexOf interruptUnregisterStep <
       (fusb30x_remove none).trace.indexOf Ev.stopThreads) := by decide

/-- Claim C5 (amended): during detach the interrupt unregistration (part of
the GPIO release step `fusb_GPIO_Cleanup`, modelled from the spec) is
ordered AFTER the worker scheduler is stopped — GPIO cleanup is the last
teardown step, executed once per detach. -/
theorem remove_unregister_after_stop (cd : Option Nat) :
    (fusb30x_remove cd).trace.indexOf Ev.stopThreads <
      (fusb30x_remove cd).trace.indexOf interruptUnregisterStep ∧
    interruptUnregisterStep ∈ (fusb30x_remove cd).trace := by
  have h : fusb30x_remove cd = fusb30x_remove none := rfl
  rw [h]
  decide

/-- Claim C7 (counterexample): the attach error results are not pairwise
distinguishable — a NULL client handle and a device-tree mismatch both
return -EINVAL, and a missing bus capability and a failed identity check
both return -EIO. -/
theorem probe_error_codes_collide :
    (fusb30x_probe { allOk 0 with clientNonNull := false } baseline).ret =
      (fusb30x_probe { allOk 0 with dtMatch := false } baseline).ret ∧
    (fusb30x_probe { allOk 0 with i2cFuncOk := false } baseline).ret =
      (fusb30x_probe { allOk 0 with deviceValid := false } baseline).ret := by
  decide

/-- Claim C7 (amended): each failure cause maps to a fixed error code, but
the codes are shared: a NULL client handle and a device-tree mismatch both
yield -EINVAL, a missing bus capability and a failed identity check both
yield -EIO, and an allocation failure yields -ENOMEM. -/
theorem probe_error_codes (s : DriverState) (a : Nat) (g : Int)
    (b1 b2 b3 bv : Bool) :
    (fusb30x_probe ⟨false, b1, b2, b3, a, bv, g⟩ s).ret = -einval ∧
    (fusb30x_probe ⟨true, false, b2, b3, a, bv, g⟩ s).ret = -einval ∧
    (fusb30x_probe ⟨true, true, false, b3, a, bv, g⟩ s).ret = -eio ∧
    (fusb30x_probe ⟨true, true, true, false, a, bv, g⟩ s).ret = -enomem ∧
    (fusb30x_probe ⟨true, true, true, true, a, false, g⟩ s).ret = -eio := by
  simp [fusb30x_probe]

/-- Claim C8 (counterexample): an attach whose identity check fails does
return -EIO, but resources DO remain allocated afterwards — the global chip
pointer and client driver-data are still set, so the "zero resources
allocated" half of the claim is false. -/
theorem probe_identity_failure_leaves_state :
    (fusb30x_probe { allOk 5 with deviceValid := false } baseline).ret
      = -eio ∧
    (fusb30x_probe { allOk 5 with deviceValid := false } baseline).state ≠
      baseline := by decide

/-- Claim C8 (amended): for every attach attempt in which the chip fails the
identity check (all earlier steps succeeding), attach returns -EIO, and the
global chip pointer, the initialized lock and the client driver-data remain
set afterwards (only the chip allocation itself is device-managed and
reclaimed by the framework). -/
theorem probe_identity_failure (s : DriverState) (a : Nat) (g : Int) :
    (fusb30x_probe ⟨true, true, true, true, a, false, g⟩ s).ret = -eio ∧
    (fusb30x_probe ⟨true, true, true, true, a, false, g⟩ s).state.gChip
      = some a ∧
    (fusb30x_probe ⟨true, true, true, true, a, false, g⟩ s).state.clientData
      = some a ∧
    (fusb30x_probe ⟨true, true, true, true, a, false, g⟩ s).state.lockInit
      = true := by
  simp [fusb30x_probe]

end Fusb30x
